import Mathlib

/-!
# Verification of the hexapod motion-control core

Shallow embedding of the `hexapod` repository (two backends:
`big_hex` with LX-16A serial-bus servos and `hex` with PCA9685 PWM
servos) together with proofs about the embedded definitions.

Layout:
* `LX16A` — the framed-serial protocol codec (`big_hex/src/lx16a.py`):
  checksum, packet building, receive/decode, and the `move`,
  `move_prepare`, `move_start` commands.
* `Conv` — the calibrated angle→native-signal conversions
  (`big_hex/src/hexapod.py::Hexapod._angle_to_position` and
  `hex/src/hexapod.py::Hexapod.angle_to_pulse` / `set_servo`).
* `IK` — the per-leg inverse-kinematics solver (`leg_ik` in both
  backends; they share the same body and differ only in the final
  servo-domain mapping).
* `Ctrl` — the leg controller and gait layer state semantics
  (`move_leg`, `move_all_legs`, `_tripod_step` of both backends),
  modelled as an explicit event trace plus a foot-position map.

Machine integers are modelled as `ℕ`/`ℤ` with explicit `% 256` where
Python masks with `& 0xFF`; Python floats are modelled as `ℝ`.
-/

namespace LX16A

/-- Protocol constant `FRAME_HEADER = 0x55` (lx16a.py line 52). -/
def FRAME_HEADER : ℕ := 0x55

/-- Protocol constant `BROADCAST_ID = 254` (lx16a.py line 55). -/
def BROADCAST_ID : ℕ := 254

/-- Protocol constant `CMD_MOVE_TIME_WRITE = 1` (lx16a.py line 23). -/
def CMD_MOVE_TIME_WRITE : ℕ := 1

/-- Protocol constant `CMD_MOVE_TIME_WAIT_WRITE = 7` (lx16a.py line 25). -/
def CMD_MOVE_TIME_WAIT_WRITE : ℕ := 7

/-- Protocol constant `CMD_MOVE_START = 11` (lx16a.py line 26). -/
def CMD_MOVE_START : ℕ := 11

/-- Protocol constant `CMD_POS_READ = 28` (lx16a.py line 41). -/
def CMD_POS_READ : ℕ := 28

/-- Python `(~total) & 0xFF` for a nonnegative `total`: the bitwise NOT
of `total`, masked to 8 bits.  For `total ≥ 0` this equals
`255 - total % 256`. -/
def notMask (total : ℕ) : ℕ := 255 - total % 256

/-- Checksum routine `LX16A._checksum` (lx16a.py lines 108–116):

    length = data[3]
    total = sum(data[2:length + 2])
    return (~total) & 0xFF

`data[2:length+2]` is the slice of `length` bytes starting at index 2,
i.e. the servo-id byte, the length byte, the command byte and the
parameter bytes. -/
def checksum (data : List ℕ) : ℕ :=
  notMask ((data.drop 2).take (data.getD 3 0)).sum

/-- Packet builder `LX16A._build_packet` (lx16a.py lines 118–137):

    length = len(params) + 3
    packet = bytes([FRAME_HEADER, FRAME_HEADER, servo_id, length, cmd]) + params
    checksum = self._checksum(packet + b'\x00')
    packet += bytes([checksum])

Python's `bytes([...])` raises `ValueError` when any element is outside
`[0, 256)`; that failure is modelled as `none`.  There is no explicit
length check in the source: the only failure is the length byte
(`len(params) + 3`) or `servo_id`/`cmd` overflowing a byte. -/
def buildPacket (servo_id cmd : ℕ) (params : List ℕ) : Option (List ℕ) :=
  if servo_id < 256 ∧ params.length + 3 < 256 ∧ cmd < 256 then
    some (([FRAME_HEADER, FRAME_HEADER, servo_id, params.length + 3, cmd] ++ params) ++
      [checksum (([FRAME_HEADER, FRAME_HEADER, servo_id, params.length + 3, cmd] ++ params)
        ++ [0])])
  else
    none

/-- Outcome of `LX16A._receive`.  The source returns `None` both when
too few bytes arrive before the timeout (here: end of the finite input
stream) and on a checksum mismatch; the mismatch case additionally
prints a `"Checksum mismatch"` diagnostic, so the two failures are
observably distinct and modelled as distinct constructors. -/
inductive DecodeResult where
  | ok (packet : List ℕ)
  | checksumMismatch
  | incomplete
deriving DecidableEq

/-- The header-scanning loop of `LX16A._receive` (lx16a.py lines
159–174): bytes are consumed one at a time, a `FRAME_HEADER` byte
increments `header_count` and any other byte resets it to 0, until two
consecutive header bytes have been seen.  Returns the remaining stream
after the second header byte, or `none` when the stream runs out
(timeout with `header_count < 2`). -/
def scanHeader : List ℕ → Option (List ℕ)
  | 0x55 :: 0x55 :: rest => some rest
  | _ :: rest => scanHeader rest
  | [] => none

/-- Receiver `LX16A._receive` (lx16a.py lines 149–200) on a finite byte stream:

    # Wait for frame header (two consecutive 0x55 bytes)
    header = self.serial.read(2)            # servo_id, length
    remaining = length
    data = self.serial.read(remaining)
    if len(data) < remaining: return None
    packet = bytes([FRAME_HEADER, FRAME_HEADER, servo_id, length]) + data
    received_checksum = packet[-1]
    calculated_checksum = self._checksum(packet[:-1] + b'\x00')
    if received_checksum != calculated_checksum: return None  # prints mismatch
    return packet

Note the source reads `length` bytes after the servo-id/length pair
even though its own comment says `length - 1` bytes remain in a
well-formed frame. -/
def receive (stream : List ℕ) : DecodeResult :=
  match scanHeader stream with
  | none => .incomplete
  | some rest =>
    match rest with
    | servo_id :: length :: rest2 =>
      if rest2.length < length then .incomplete
      else
        let data := rest2.take length
        let packet := [FRAME_HEADER, FRAME_HEADER, servo_id, length] ++ data
        let received := packet.getLastD 0
        let calculated := checksum (packet.dropLast ++ [0])
        if received ≠ calculated then .checksumMismatch
        else .ok packet
    | _ => .incomplete

/-- The two little-endian parameter bytes Python packs with
`v & 0xFF, (v >> 8) & 0xFF` for a nonnegative `v`. -/
def le2 (v : ℕ) : List ℕ := [v % 256, v / 256 % 256]

/-- Command `LX16A.move` (lx16a.py lines 206–226):

    position = max(0, min(1000, position))
    time_ms = max(0, min(30000, time_ms))
    params = bytes([position & 0xFF, (position >> 8) & 0xFF,
                    time_ms & 0xFF, (time_ms >> 8) & 0xFF])
    packet = self._build_packet(servo_id, CMD_MOVE_TIME_WRITE, params)

The built packet is what `_send` writes to the bus. -/
def move (servo_id : ℕ) (position time_ms : ℤ) : Option (List ℕ) :=
  let p := (max 0 (min 1000 position)).toNat
  let t := (max 0 (min 30000 time_ms)).toNat
  buildPacket servo_id CMD_MOVE_TIME_WRITE (le2 p ++ le2 t)

/-- Command `LX16A.move_prepare` (lx16a.py lines 228–248): identical clamping
and parameter packing to `move`, but with `CMD_MOVE_TIME_WAIT_WRITE`. -/
def movePrepare (servo_id : ℕ) (position time_ms : ℤ) : Option (List ℕ) :=
  let p := (max 0 (min 1000 position)).toNat
  let t := (max 0 (min 30000 time_ms)).toNat
  buildPacket servo_id CMD_MOVE_TIME_WAIT_WRITE (le2 p ++ le2 t)

/-- Command `LX16A.move_start` (lx16a.py lines 250–258): a parameterless
`CMD_MOVE_START` packet, by default to `BROADCAST_ID`. -/
def moveStart (servo_id : ℕ) : Option (List ℕ) :=
  buildPacket servo_id CMD_MOVE_START []

/-- Modelled from the spec: §4.5 says the checksum is the "bitwise NOT
of the sum of all bytes from the length field through the end of
parameters, masked to 8 bits".  For a frame for `servo_id`, `cmd` and
`params` the length field holds `params.length + 3`, so this is the
spec's checksum value, to be compared with the one the source
computes. -/
def specChecksum (cmd : ℕ) (params : List ℕ) : ℕ :=
  notMask ((params.length + 3) + cmd + params.sum)

end LX16A

namespace Conv

/-- Python `int()` applied to a float: truncation toward zero
(floor for nonnegative arguments, ceiling for negative ones). -/
noncomputable def pyInt (x : ℝ) : ℤ := if 0 ≤ x then ⌊x⌋ else ⌈x⌉

/-- Conversion `Hexapod._angle_to_position` (big_hex/src/hexapod.py lines 228–246):

    direction = self.servo_dir.get(leg, {}).get(joint, 1)
    if direction < 0:
        angle = 240 - angle
    position = int(angle * 1000 / 240)
    offset = self.calibration.get(str(servo_id), {}).get('offset', 0)
    position += offset
    return clamp(position, 0, 1000)

The per-(leg, joint) direction and the per-servo calibration offset are
passed explicitly; `clamp(val, lo, hi) = max(lo, min(hi, val))`
(big_hex/src/hexapod.py lines 67–69). -/
noncomputable def angleToPosition (direction offset : ℤ) (angle : ℝ) : ℤ :=
  max 0 (min 1000
    (pyInt ((if direction < 0 then 240 - angle else angle) * 1000 / 240) + offset))

/-- Conversion `Hexapod.angle_to_pulse` (hex/src/hexapod.py lines 205–212) for a
servo whose calibrated pulse range is `[smin, smax]`:

    angle = clamp(angle, 0, 180)
    pulse = sr['min'] + (angle / 180.0) * (sr['max'] - sr['min'])
    return int(pulse)

The stored calibration of this backend consists of the range endpoints
(and an unused center); it has no additive offset field. -/
noncomputable def angle_to_pulse (smin smax : ℤ) (angle : ℝ) : ℤ :=
  pyInt ((smin : ℝ) + (max 0 (min 180 angle)) / 180 * ((smax : ℝ) - (smin : ℝ)))

/-- The direction handling of hex `Hexapod.set_servo`
(hex/src/hexapod.py lines 214–229): `if direction < 0: angle = 180 -
angle` before calling `angle_to_pulse`. -/
noncomputable def setServoPulse (direction smin smax : ℤ) (angle : ℝ) : ℤ :=
  angle_to_pulse smin smax (if direction < 0 then 180 - angle else angle)

/-- Modelled from the spec (§4.2): "linearly interpolates the angle
domain onto [native_signal_min, native_signal_max]" — the affine map
sending the angle domain `[anglo, anghi]` onto the signal range
`[siglo, sighi]`, for comparison with the conversions the source
computes. -/
noncomputable def lerp (siglo sighi : ℤ) (anglo anghi : ℝ) (a : ℝ) : ℝ :=
  (siglo : ℝ) + ((a - anglo) / (anghi - anglo)) * ((sighi : ℝ) - (siglo : ℝ))

end Conv

namespace IK

/-!
The inverse-kinematics solver `leg_ik`.  The two backends share the
same body line for line (hex/src/hexapod.py lines 65–130 and
big_hex/src/hexapod.py lines 72–135); they differ only in the link
lengths' default values and in the final servo-domain mapping
(centre 90 / range 0–180 for hex, centre 120 / range 0–240 for
big_hex).  The shared intermediate quantities are defined once and
used by both embeddings.
-/

/-- Python `math.atan2 y x`, modelled as the argument of the complex
number `x + y·i` (the same branch conventions, including
`atan2 0 0 = 0`). -/
noncomputable def atan2 (y x : ℝ) : ℝ := Complex.arg ⟨x, y⟩

/-- Python `math.degrees`. -/
noncomputable def degrees (r : ℝ) : ℝ := r * (180 / Real.pi)

/-- Helper `clamp(val, min_val, max_val) = max(min_val, min(max_val, val))`
(both hexapod.py files). -/
noncomputable def clampR (v lo hi : ℝ) : ℝ := max lo (min hi v)

/-- The origin perturbation at the top of `leg_ik`:
`if x == 0 and y == 0: x = 0.1`. -/
noncomputable def adjX (x y : ℝ) : ℝ := if x = 0 ∧ y = 0 then 0.1 else x

/-- Quantity `xy_dist = sqrt(x**2 + y**2) - coxa_len`, floored to the minimum
reach 1 when negative (`if xy_dist < 0: xy_dist = 1`). -/
noncomputable def xyDist (x y coxa : ℝ) : ℝ :=
  if Real.sqrt ((adjX x y) ^ 2 + y ^ 2) - coxa < 0 then 1
  else Real.sqrt ((adjX x y) ^ 2 + y ^ 2) - coxa

/-- Quantity `foot_dist = sqrt(xy_dist**2 + z**2)`: the reach from the femur
pivot to the foot. -/
noncomputable def footDist (x y z coxa : ℝ) : ℝ :=
  Real.sqrt ((xyDist x y coxa) ^ 2 + z ^ 2)

/-- The reachability test of `leg_ik`:
`foot_dist > max_reach or foot_dist < min_reach` with
`max_reach = femur_len + tibia_len` and
`min_reach = abs(femur_len - tibia_len)`.  In the hex backend this is
exactly the condition under which the `clamped` flag is set and the
reachability warning printed. -/
def outOfReach (femur tibia d : ℝ) : Prop :=
  d > femur + tibia ∨ d < |femur - tibia|

/-- The reach actually used by the rest of `leg_ik`:
`foot_dist = clamp(foot_dist, min_reach + 1, max_reach - 1)` applied
only when out of reach. -/
noncomputable def clampedFootDist (femur tibia d : ℝ) : ℝ :=
  if d > femur + tibia ∨ d < |femur - tibia| then
    clampR d (|femur - tibia| + 1) (femur + tibia - 1)
  else d

/-- The (already clamped) inverse-cosine argument of the tibia angle:
`clamp(cos_tibia, -1, 1)` with
`cos_tibia = (femur**2 + tibia**2 - foot_dist**2) / (2*femur*tibia)`. -/
noncomputable def cosTibiaArg (femur tibia d : ℝ) : ℝ :=
  clampR ((femur ^ 2 + tibia ^ 2 - d ^ 2) / (2 * femur * tibia)) (-1) 1

/-- The (already clamped) inverse-cosine argument of the femur angle:
`clamp(cos_femur, -1, 1)` with
`cos_femur = (femur**2 + foot_dist**2 - tibia**2) / (2*femur*foot_dist)`. -/
noncomputable def cosFemurArg (femur tibia d : ℝ) : ℝ :=
  clampR ((femur ^ 2 + d ^ 2 - tibia ^ 2) / (2 * femur * d)) (-1) 1

/-- Quantity `tibia_angle = degrees(acos(clamp(cos_tibia, -1, 1)))`. -/
noncomputable def tibiaAngle (femur tibia d : ℝ) : ℝ :=
  degrees (Real.arccos (cosTibiaArg femur tibia d))

/-- Quantity `femur_angle = degrees(atan2(-z, xy_dist)) + degrees(acos(clamp(cos_femur, -1, 1)))`. -/
noncomputable def femurAngle (xy z femur tibia d : ℝ) : ℝ :=
  degrees (atan2 (-z) xy) + degrees (Real.arccos (cosFemurArg femur tibia d))

/-- Solver `leg_ik` of big_hex/src/hexapod.py (lines 72–135).  The final
mapping is `coxa_servo = clamp(120 + coxa_angle, 0, 240)`,
`femur_servo = clamp(femur_angle + 30, 0, 240)`,
`tibia_servo = clamp(240 - tibia_angle, 0, 240)`, and the function
always ends in `return coxa_servo, femur_servo, tibia_servo` — the
`Optional` annotation notwithstanding, no path returns `None`. -/
noncomputable def legIkBig (x y z coxa femur tibia : ℝ) : Option (ℝ × ℝ × ℝ) :=
  some
    (clampR (120 + degrees (atan2 y (adjX x y))) 0 240,
     clampR (femurAngle (xyDist x y coxa) z femur tibia
       (clampedFootDist femur tibia (footDist x y z coxa)) + 30) 0 240,
     clampR (240 - tibiaAngle femur tibia
       (clampedFootDist femur tibia (footDist x y z coxa))) 0 240)

/-- big_hex `leg_ik` emits no reachability warning: its body
(big_hex/src/hexapod.py lines 112–114) clamps the reach without any
print or flag.  This predicate models the emission of a warning by that
function, and is therefore `False` for every input. -/
def legIkBigWarned (_x _y _z _coxa _femur _tibia : ℝ) : Prop := False

/-- Result of hex `leg_ik`: the returned triple together with whether
the reachability warning (`if clamped: print("Warning: IK target ... out
of reach, clamped")`, hex/src/hexapod.py lines 101–128) was emitted. -/
structure HexIKOut where
  angles : ℝ × ℝ × ℝ
  warned : Prop

/-- Solver `leg_ik` of hex/src/hexapod.py (lines 65–130).  Final mapping:
`coxa_servo = clamp(90 + coxa_angle, 0, 180)`,
`femur_servo = clamp(femur_angle, 0, 180)`,
`tibia_servo = clamp(180 - tibia_angle, 0, 180)`; the `clamped` flag is
set exactly by the `outOfReach` test and drives the warning print. -/
noncomputable def legIkHex (x y z coxa femur tibia : ℝ) : HexIKOut where
  angles :=
    (clampR (90 + degrees (atan2 y (adjX x y))) 0 180,
     clampR (femurAngle (xyDist x y coxa) z femur tibia
       (clampedFootDist femur tibia (footDist x y z coxa))) 0 180,
     clampR (180 - tibiaAngle femur tibia
       (clampedFootDist femur tibia (footDist x y z coxa))) 0 180)
  warned := outOfReach femur tibia (footDist x y z coxa)

/-- Default big_hex geometry (big_hex/src/hexapod.py lines 20–22):
`COXA_LENGTH = 50`, `FEMUR_LENGTH = 80`, `TIBIA_LENGTH = 120`. -/
noncomputable def BIG_COXA : ℝ := 50

/-- Constant `FEMUR_LENGTH = 80` (big_hex). -/
noncomputable def BIG_FEMUR : ℝ := 80

/-- Constant `TIBIA_LENGTH = 120` (big_hex). -/
noncomputable def BIG_TIBIA : ℝ := 120

end IK

namespace Ctrl

/-- Observable steps of the big_hex `Hexapod` leg controller: an
immediate per-joint move command written to the bus (`bus.move`), a
deferred per-joint prepare command (`bus.move_prepare`), the broadcast
start command (`bus.move_start`), and a write to the stored
`leg_positions` map. -/
inductive Ev where
  | sendMove (servoId : ℕ) (position : ℤ) (timeMs : ℕ)
  | sendPrepare (servoId : ℕ) (position : ℤ) (timeMs : ℕ)
  | sendStart (servoId : ℕ)
  | writePos (leg : String) (pos : ℝ × ℝ × ℝ)

/-- The configuration a `Hexapod` instance carries (big_hex
hexapod.py lines 169–179): servo-id map, per-(leg, joint) direction,
per-servo calibration offset lookup, and link lengths. -/
structure Cfg where
  servoIds : String → String → ℕ
  servoDir : String → String → ℤ
  offset : ℕ → ℤ
  coxaLen : ℝ
  femurLen : ℝ
  tibiaLen : ℝ

/-- The mutable `self.leg_positions` map: stored foot position per leg
name. -/
abbrev Positions : Type := String → ℝ × ℝ × ℝ

/-- The effect of one event on the stored positions: only a
`leg_positions[leg] = (x, y, z)` assignment changes them. -/
noncomputable def applyEv (st : Positions) : Ev → Positions
  | .writePos leg p => Function.update st leg p
  | _ => st

/-- Folding a trace of events over the stored positions. -/
noncomputable def runEvents (st : Positions) (evs : List Ev) : Positions :=
  evs.foldl applyEv st

/-- Trace of big_hex `Hexapod.move_leg` (hexapod.py lines 280–297):

    angles = leg_ik(x, y, z, ...)
    if angles is None: print warning; return   # dead: leg_ik always returns a triple
    self.set_leg_angles(leg, coxa, femur, tibia, time_ms)
    self.leg_positions[leg] = (x, y, z)

`set_leg_angles` issues `set_servo` for coxa, femur, tibia in that
order, and each `set_servo` sends one immediate `bus.move` with the
converted position (lines 248–274).  The position write comes after the
three dispatches. -/
noncomputable def moveLegEvents (cfg : Cfg) (leg : String) (x y z : ℝ) (timeMs : ℕ) :
    List Ev :=
  match IK.legIkBig x y z cfg.coxaLen cfg.femurLen cfg.tibiaLen with
  | none => []
  | some (c, f, t) =>
    [.sendMove (cfg.servoIds leg "coxa")
        (Conv.angleToPosition (cfg.servoDir leg "coxa")
          (cfg.offset (cfg.servoIds leg "coxa")) c) timeMs,
     .sendMove (cfg.servoIds leg "femur")
        (Conv.angleToPosition (cfg.servoDir leg "femur")
          (cfg.offset (cfg.servoIds leg "femur")) f) timeMs,
     .sendMove (cfg.servoIds leg "tibia")
        (Conv.angleToPosition (cfg.servoDir leg "tibia")
          (cfg.offset (cfg.servoIds leg "tibia")) t) timeMs,
     .writePos leg (x, y, z)]

/-- big_hex `Hexapod.move_leg`: the resulting stored positions together
with the emitted trace. -/
noncomputable def moveLeg (cfg : Cfg) (st : Positions) (leg : String) (x y z : ℝ)
    (timeMs : ℕ) : Positions × List Ev :=
  (runEvents st (moveLegEvents cfg leg x y z timeMs), moveLegEvents cfg leg x y z timeMs)

/-- One iteration of the big_hex `Hexapod.move_all_legs` loop
(hexapod.py lines 316–329) for a dict entry `leg ↦ (x, y, z)`:

    angles = leg_ik(x, y, z, ...)
    if angles is None: continue                # dead: leg_ik always returns a triple
    for joint, angle in [('coxa', coxa), ('femur', femur), ('tibia', tibia)]:
        self.bus.move_prepare(servo_id, position, time_ms)
    self.leg_positions[leg] = (x, y, z)
-/
noncomputable def legPrepareEvents (cfg : Cfg) (leg : String) (x y z : ℝ) (timeMs : ℕ) :
    List Ev :=
  match IK.legIkBig x y z cfg.coxaLen cfg.femurLen cfg.tibiaLen with
  | none => []
  | some (c, f, t) =>
    [.sendPrepare (cfg.servoIds leg "coxa")
        (Conv.angleToPosition (cfg.servoDir leg "coxa")
          (cfg.offset (cfg.servoIds leg "coxa")) c) timeMs,
     .sendPrepare (cfg.servoIds leg "femur")
        (Conv.angleToPosition (cfg.servoDir leg "femur")
          (cfg.offset (cfg.servoIds leg "femur")) f) timeMs,
     .sendPrepare (cfg.servoIds leg "tibia")
        (Conv.angleToPosition (cfg.servoDir leg "tibia")
          (cfg.offset (cfg.servoIds leg "tibia")) t) timeMs,
     .writePos leg (x, y, z)]

/-- Trace of big_hex `Hexapod.move_all_legs` (hexapod.py lines
305–332): the per-entry prepare commands and position writes for every
entry of the positions dict (in insertion order), followed by the
single `self.bus.move_start()` broadcast. -/
noncomputable def moveAllLegsEvents (cfg : Cfg) (targets : List (String × ℝ × ℝ × ℝ))
    (timeMs : ℕ) : List Ev :=
  (targets.flatMap fun p => legPrepareEvents cfg p.1 p.2.1 p.2.2.1 p.2.2.2 timeMs) ++
    [.sendStart LX16A.BROADCAST_ID]

/-- big_hex `Hexapod.move_all_legs`: resulting stored positions and
emitted trace. -/
noncomputable def moveAllLegs (cfg : Cfg) (st : Positions)
    (targets : List (String × ℝ × ℝ × ℝ)) (timeMs : ℕ) : Positions × List Ev :=
  (runEvents st (moveAllLegsEvents cfg targets timeMs), moveAllLegsEvents cfg targets timeMs)

/-- Boolean test for the broadcast start event (used to count dispatch
events in a trace). -/
def isStart : Ev → Bool
  | .sendStart _ => true
  | _ => false

/-- Boolean test for an immediate (non-batched) move dispatch. -/
def isMove : Ev → Bool
  | .sendMove _ _ _ => true
  | _ => false

/-- Tripod set `self.tripod1 = ['L1', 'R2', 'L3']` (both gait.py files). -/
def tripod1 : List String := ["L1", "R2", "L3"]

/-- Tripod set `self.tripod2 = ['R1', 'L2', 'R3']` (both gait.py files). -/
def tripod2 : List String := ["R1", "L2", "R3"]

/-- The six legs, in `LEG_ANGLES` key order (both hexapod.py files):
`L1, R1, L2, R2, L3, R3`. -/
def allLegs : List String := ["L1", "R1", "L2", "R2", "L3", "R3"]

/-- One half-cycle of the big_hex tripod gait,
`GaitController._tripod_step` (big_hex/src/gait.py lines 114–153),
as its effect on the stored positions.  Each sub-phase builds a
positions dict from the current `leg_positions` and dispatches it with
`move_all_legs`:

    1. swing legs: (x, y, z + lift_height)
    2. swing legs: (x + dx, y + dy, z); stance legs: (x - dx/2, y - dy/2, z)
    3. swing legs: (x, y, -self.stand_height)
-/
noncomputable def tripodStepBig (cfg : Cfg) (st : Positions) (swing stance : List String)
    (dx dy lift standHeight : ℝ) (timeMs : ℕ) : Positions :=
  let st1 := (moveAllLegs cfg st
    (swing.map fun l => (l, (st l).1, (st l).2.1, (st l).2.2 + lift)) timeMs).1
  let st2 := (moveAllLegs cfg st1
    ((swing.map fun l => (l, (st1 l).1 + dx, (st1 l).2.1 + dy, (st1 l).2.2)) ++
      (stance.map fun l => (l, (st1 l).1 - dx / 2, (st1 l).2.1 - dy / 2, (st1 l).2.2)))
    timeMs).1
  (moveAllLegs cfg st2
    (swing.map fun l => (l, (st2 l).1, (st2 l).2.1, -standHeight)) timeMs).1

/-- Position effect of hex `Hexapod.move_leg` (hex/src/hexapod.py lines
231–239): `leg_ik` always returns a triple, the three `set_servo` calls
carry no position state, and the stored position of the leg is set to
the target. -/
noncomputable def hexMoveLegPos (st : Positions) (leg : String) (p : ℝ × ℝ × ℝ) :
    Positions :=
  Function.update st leg p

/-- One half-cycle of the hex tripod gait,
`GaitController._tripod_step` (hex/src/gait.py lines 104–140), as its
effect on the stored positions.  Unlike big_hex it issues immediate
per-leg `move_leg` calls, and its swing phase moves by *half* the step
vector:

    1. swing legs:  move_leg(leg, x, y, z + lift_height)
    2. swing legs:  move_leg(leg, x + dx/2, y + dy/2, z)
       stance legs: move_leg(leg, x - dx/2, y - dy/2, z)
    3. swing legs:  move_leg(leg, x, y, -self.stand_height)
-/
noncomputable def tripodStepHex (st : Positions) (swing stance : List String)
    (dx dy lift standHeight : ℝ) : Positions :=
  let st1 := swing.foldl
    (fun s l => hexMoveLegPos s l ((s l).1, (s l).2.1, (s l).2.2 + lift)) st
  let st2a := swing.foldl
    (fun s l => hexMoveLegPos s l ((s l).1 + dx / 2, (s l).2.1 + dy / 2, (s l).2.2)) st1
  let st2 := stance.foldl
    (fun s l => hexMoveLegPos s l ((s l).1 - dx / 2, (s l).2.1 - dy / 2, (s l).2.2)) st2a
  swing.foldl (fun s l => hexMoveLegPos s l ((s l).1, (s l).2.1, -standHeight)) st2

end Ctrl

/-!
## Theorems: protocol codec (claims C3, C4, C8, C10)
-/

namespace LX16A

/-- Helper: the checksum byte `_build_packet` appends, written out over
the frame fields.  `data[2:length+2]` covers the servo-id byte, the
length byte, the command byte and the parameters. -/
theorem checksum_packet (id L cmd : ℕ) (params : List ℕ) (hL : L = params.length + 3) :
    checksum (([85, 85, id, L, cmd] ++ params) ++ [0])
      = notMask (id + L + cmd + params.sum) := by
  have hg : (([85, 85, id, L, cmd] ++ params) ++ [0]).getD 3 0 = L := by
    simp [List.getD]
  have hd : (([85, 85, id, L, cmd] ++ params) ++ [0]).drop 2
      = ([id, L, cmd] ++ params) ++ [0] := by simp
  have ht : (([id, L, cmd] ++ params) ++ [0]).take L = [id, L, cmd] ++ params :=
    List.take_left' (by simp [hL])
  rw [checksum, hg, hd, ht]
  congr 1
  simp [List.sum_append]
  omega

/-- Helper: the complete frame `_build_packet` produces, for in-range
inputs. -/
theorem buildPacket_eq (id cmd : ℕ) (params : List ℕ)
    (h1 : id < 256) (h2 : cmd < 256) (h3 : params.length + 3 < 256) :
    buildPacket id cmd params =
      some ([85, 85, id, params.length + 3, cmd] ++ params ++
        [notMask (id + (params.length + 3) + cmd + params.sum)]) := by
  rw [buildPacket, if_pos ⟨h1, h3, h2⟩]
  simp only [FRAME_HEADER]
  rw [checksum_packet id _ cmd params rfl]

end LX16A

/-- C3 (counterexample): the claim says the checksum is the bitwise NOT
of the sum of the bytes from the *length field* through the parameters.
For the frame with servo id 1, command 1 and no parameters the code
produces checksum byte `250 = ~(1 + 3 + 1) & 0xFF` — the sum starts at
the servo-id byte — whereas the spec's formula gives
`251 = ~(3 + 1) & 0xFF`. -/
theorem c3_checksum_field_counterexample :
    LX16A.buildPacket 1 1 [] = some [85, 85, 1, 3, 1, 250] ∧
      LX16A.specChecksum 1 [] = 251 ∧ (250 : ℕ) ≠ 251 := by
  refine ⟨by decide, by decide, by decide⟩

/-- C3 (amended): for every in-range servo id, command and parameter
list, the checksum byte of the encoded frame equals the bitwise NOT of
the sum of all bytes from the *servo-id field* through the end of the
parameter bytes, masked to 8 bits. -/
theorem c3_checksum_from_id_field (id cmd : ℕ) (params : List ℕ)
    (h1 : id < 256) (h2 : cmd < 256) (h3 : params.length + 3 < 256) :
    LX16A.buildPacket id cmd params =
      some ([85, 85, id, params.length + 3, cmd] ++ params ++
        [LX16A.notMask (id + (params.length + 3) + cmd + params.sum)]) :=
  LX16A.buildPacket_eq id cmd params h1 h2 h3

/-- C3 witness: the amended checksum formula at servo id 1, command 9,
parameters `[5]`. -/
theorem c3_checksum_from_id_field_witness :
    (1 : ℕ) < 256 ∧ (9 : ℕ) < 256 ∧ ([5] : List ℕ).length + 3 < 256 ∧
      LX16A.buildPacket 1 9 [5] =
        some ([85, 85, 1, 4, 9] ++ [5] ++ [LX16A.notMask (1 + 4 + 9 + 5)]) :=
  ⟨by decide, by decide, by decide,
    c3_checksum_from_id_field 1 9 [5] (by decide) (by decide) (by decide)⟩

/-- C4 (code bug): `_receive` reads `length` bytes after the id/length
pair although its own comment says `length - 1` remain in a well-formed
frame, so feeding the decoder exactly the bytes `_build_packet` encodes
(here: servo id 1, command `CMD_MOVE_START`, no parameters) runs out of
input and yields `Incomplete` — never the decoded packet, and not a
checksum mismatch. -/
theorem c4_receive_drops_wellformed_frame :
    LX16A.buildPacket 1 LX16A.CMD_MOVE_START [] = some [85, 85, 1, 3, 11, 240] ∧
      LX16A.receive [85, 85, 1, 3, 11, 240] = LX16A.DecodeResult.incomplete := by
  refine ⟨by decide, by decide⟩

/-- C8: encoding fails exactly when the parameter bytes exceed the
protocol's maximum per-frame parameter length (252, the point where the
length byte `len(params) + 3` no longer fits in one byte); for
parameters within the limit a frame is always built. -/
theorem c8_encode_fails_iff_oversized (id cmd : ℕ) (params : List ℕ)
    (h1 : id < 256) (h2 : cmd < 256) :
    (LX16A.buildPacket id cmd params).isSome ↔ params.length ≤ 252 := by
  rw [LX16A.buildPacket]
  by_cases h : params.length + 3 < 256
  · rw [if_pos ⟨h1, h, h2⟩]
    simp
    omega
  · rw [if_neg (by tauto)]
    simp
    omega

/-- C8 witness: with an empty parameter list the frame is built; with
253 parameter bytes encoding fails. -/
theorem c8_encode_fails_iff_oversized_witness :
    (0 : ℕ) < 256 ∧ (1 : ℕ) < 256 ∧ ((LX16A.buildPacket 0 1 []).isSome ↔ ([] : List ℕ).length ≤ 252) ∧
      (LX16A.buildPacket 0 1 []).isSome :=
  ⟨by decide, by decide, c8_encode_fails_iff_oversized 0 1 [] (by decide) (by decide),
    by decide⟩

/-- C10: `move` and `move_prepare` clamp the position to `[0, 1000]`
and the time to `[0, 30000]`, pack each clamped value as two
little-endian bytes, and always build a frame (length byte 7,
command 1 resp. 7) — out-of-range inputs are never rejected. -/
theorem c10_move_clamps_and_packs (id : ℕ) (pos t : ℤ) (h : id < 256) :
    LX16A.move id pos t =
      some ([85, 85, id, 7, 1] ++
        (LX16A.le2 (max 0 (min 1000 pos)).toNat ++ LX16A.le2 (max 0 (min 30000 t)).toNat) ++
        [LX16A.notMask (id + 7 + 1 +
          (LX16A.le2 (max 0 (min 1000 pos)).toNat ++ LX16A.le2 (max 0 (min 30000 t)).toNat).sum)]) ∧
    LX16A.movePrepare id pos t =
      some ([85, 85, id, 7, 7] ++
        (LX16A.le2 (max 0 (min 1000 pos)).toNat ++ LX16A.le2 (max 0 (min 30000 t)).toNat) ++
        [LX16A.notMask (id + 7 + 7 +
          (LX16A.le2 (max 0 (min 1000 pos)).toNat ++ LX16A.le2 (max 0 (min 30000 t)).toNat).sum)]) ∧
    (max 0 (min 1000 pos)).toNat ≤ 1000 ∧ (max 0 (min 30000 t)).toNat ≤ 30000 := by
  refine ⟨?_, ?_, ?_, ?_⟩
  · rw [LX16A.move,
      LX16A.buildPacket_eq id LX16A.CMD_MOVE_TIME_WRITE _ h (by decide) (by simp [LX16A.le2])]
    rfl
  · rw [LX16A.movePrepare,
      LX16A.buildPacket_eq id LX16A.CMD_MOVE_TIME_WAIT_WRITE _ h (by decide) (by simp [LX16A.le2])]
    rfl
  · omega
  · omega

/-- C10 witness: servo id 1 with out-of-range position 5000 and
negative time −7; the position clamps to 1000 = `[232, 3]` and the
time to 0 = `[0, 0]`. -/
theorem c10_move_clamps_and_packs_witness :
    (1 : ℕ) < 256 ∧
      LX16A.move 1 5000 (-7) =
        some ([85, 85, 1, 7, 1] ++ (LX16A.le2 (max 0 (min 1000 (5000 : ℤ))).toNat ++
          LX16A.le2 (max 0 (min 30000 (-7 : ℤ))).toNat) ++
          [LX16A.notMask (1 + 7 + 1 + (LX16A.le2 (max 0 (min 1000 (5000 : ℤ))).toNat ++
            LX16A.le2 (max 0 (min 30000 (-7 : ℤ))).toNat).sum)]) :=
  ⟨by decide, (c10_move_clamps_and_packs 1 5000 (-7) (by decide)).1⟩

/-!
## Theorems: angle → native-signal conversion (claims C2, C9)
-/

namespace Conv

/-- Helper: Python `int()` truncation is monotone. -/
theorem pyInt_mono : Monotone pyInt := by
  intro x y h
  unfold pyInt
  by_cases hx : 0 ≤ x
  · rw [if_pos hx, if_pos (le_trans hx h)]
    exact Int.floor_le_floor h
  · rw [if_neg hx]
    by_cases hy : 0 ≤ y
    · rw [if_pos hy]
      refine le_trans (Int.ceil_le.mpr ?_) (Int.floor_nonneg.mpr hy)
      exact_mod_cast le_of_not_le hx
    · rw [if_neg hy]
      exact Int.ceil_le_ceil h

/-- Helper: truncation stays below any integer bound on the argument. -/
theorem pyInt_le_intCast (x : ℝ) (n : ℤ) (h : x ≤ (n : ℝ)) : pyInt x ≤ n := by
  unfold pyInt
  split
  · exact le_trans (Int.floor_le_floor h) (le_of_eq (Int.floor_intCast n))
  · exact le_trans (Int.ceil_le_ceil h) (le_of_eq (Int.ceil_intCast n))

/-- Helper: truncation stays above any integer bound on the argument. -/
theorem intCast_le_pyInt (n : ℤ) (x : ℝ) (h : (n : ℝ) ≤ x) : n ≤ pyInt x := by
  unfold pyInt
  split
  · exact Int.le_floor.mpr h
  · exact_mod_cast le_trans h (Int.le_ceil x)

end Conv

/-- C2: the angle→native-signal conversions of both backends are
monotone in the angle for direction +1 and anti-monotone for direction
−1, and their output always lies in the native signal range: `[0, 1000]`
for big_hex `_angle_to_position` (any direction and offset), and
`[smin, smax]` for hex `angle_to_pulse` (given `smin ≤ smax`). -/
theorem c2_angle_to_signal_monotone_in_range :
    (∀ (off : ℤ) (a b : ℝ), a ≤ b →
      Conv.angleToPosition 1 off a ≤ Conv.angleToPosition 1 off b) ∧
    (∀ (off : ℤ) (a b : ℝ), a ≤ b →
      Conv.angleToPosition (-1) off b ≤ Conv.angleToPosition (-1) off a) ∧
    (∀ (d off : ℤ) (a : ℝ),
      0 ≤ Conv.angleToPosition d off a ∧ Conv.angleToPosition d off a ≤ 1000) ∧
    (∀ (smin smax : ℤ) (a b : ℝ), smin ≤ smax → a ≤ b →
      Conv.setServoPulse 1 smin smax a ≤ Conv.setServoPulse 1 smin smax b) ∧
    (∀ (smin smax : ℤ) (a b : ℝ), smin ≤ smax → a ≤ b →
      Conv.setServoPulse (-1) smin smax b ≤ Conv.setServoPulse (-1) smin smax a) ∧
    (∀ (smin smax : ℤ) (a : ℝ), smin ≤ smax →
      smin ≤ Conv.angle_to_pulse smin smax a ∧ Conv.angle_to_pulse smin smax a ≤ smax) := by
  refine ⟨?_, ?_, ?_, ?_, ?_, ?_⟩
  · intro off a b h
    unfold Conv.angleToPosition
    rw [if_neg (by decide : ¬ ((1:ℤ) < 0)), if_neg (by decide : ¬ ((1:ℤ) < 0))]
    have h2 : a * 1000 / 240 ≤ b * 1000 / 240 :=
      div_le_div_of_nonneg_right (by nlinarith) (by norm_num)
    exact max_le_max (le_refl 0) (min_le_min (le_refl 1000)
      (add_le_add_right (Conv.pyInt_mono h2) off))
  · intro off a b h
    unfold Conv.angleToPosition
    rw [if_pos (by decide : ((-1:ℤ) < 0)), if_pos (by decide : ((-1:ℤ) < 0))]
    have h2 : (240 - b) * 1000 / 240 ≤ (240 - a) * 1000 / 240 :=
      div_le_div_of_nonneg_right (by nlinarith) (by norm_num)
    exact max_le_max (le_refl 0) (min_le_min (le_refl 1000)
      (add_le_add_right (Conv.pyInt_mono h2) off))
  · intro d off a
    unfold Conv.angleToPosition
    exact ⟨le_max_left 0 _, max_le (by norm_num) (min_le_left 1000 _)⟩
  · intro smin smax a b hr h
    unfold Conv.setServoPulse Conv.angle_to_pulse
    rw [if_neg (by decide : ¬ ((1:ℤ) < 0)), if_neg (by decide : ¬ ((1:ℤ) < 0))]
    apply Conv.pyInt_mono
    have hd : (0 : ℝ) ≤ (smax : ℝ) - smin := by
      have h3 : (smin : ℝ) ≤ (smax : ℝ) := by exact_mod_cast hr
      linarith
    have hm : max 0 (min 180 a) ≤ max 0 (min 180 b) :=
      max_le_max (le_refl 0) (min_le_min (le_refl 180) h)
    nlinarith [hm, hd]
  · intro smin smax a b hr h
    unfold Conv.setServoPulse Conv.angle_to_pulse
    rw [if_pos (by decide : ((-1:ℤ) < 0)), if_pos (by decide : ((-1:ℤ) < 0))]
    apply Conv.pyInt_mono
    have hd : (0 : ℝ) ≤ (smax : ℝ) - smin := by
      have h3 : (smin : ℝ) ≤ (smax : ℝ) := by exact_mod_cast hr
      linarith
    have hm : max 0 (min 180 (180 - b)) ≤ max 0 (min 180 (180 - a)) :=
      max_le_max (le_refl 0) (min_le_min (le_refl 180) (by linarith))
    nlinarith [hm, hd]
  · intro smin smax a hr
    unfold Conv.angle_to_pulse
    have hd : (0 : ℝ) ≤ (smax : ℝ) - smin := by
      have h3 : (smin : ℝ) ≤ (smax : ℝ) := by exact_mod_cast hr
      linarith
    have hac0 : (0 : ℝ) ≤ max 0 (min 180 a) := le_max_left 0 _
    have hac180 : max 0 (min 180 a) ≤ 180 := max_le (by norm_num) (min_le_left 180 _)
    constructor
    · apply Conv.intCast_le_pyInt
      nlinarith
    · apply Conv.pyInt_le_intCast
      nlinarith

/-- C2 witness: concrete instances of each guarded component — big_hex
direction +1 at angles 0 ≤ 120, direction −1 at the same pair, and the
hex conversion with the default calibration range `[500, 2500]`. -/
theorem c2_angle_to_signal_monotone_in_range_witness :
    ((0:ℝ) ≤ 120) ∧ ((500:ℤ) ≤ 2500) ∧
    (Conv.angleToPosition 1 0 0 ≤ Conv.angleToPosition 1 0 120) ∧
    (Conv.angleToPosition (-1) 0 120 ≤ Conv.angleToPosition (-1) 0 0) ∧
    (Conv.setServoPulse 1 500 2500 0 ≤ Conv.setServoPulse 1 500 2500 120) ∧
    (Conv.setServoPulse (-1) 500 2500 120 ≤ Conv.setServoPulse (-1) 500 2500 0) ∧
    (500 ≤ Conv.angle_to_pulse 500 2500 90 ∧ Conv.angle_to_pulse 500 2500 90 ≤ 2500) :=
  ⟨by norm_num, by norm_num,
    c2_angle_to_signal_monotone_in_range.1 0 0 120 (by norm_num),
    c2_angle_to_signal_monotone_in_range.2.1 0 0 120 (by norm_num),
    c2_angle_to_signal_monotone_in_range.2.2.2.1 500 2500 0 120 (by norm_num) (by norm_num),
    c2_angle_to_signal_monotone_in_range.2.2.2.2.1 500 2500 0 120 (by norm_num) (by norm_num),
    c2_angle_to_signal_monotone_in_range.2.2.2.2.2 500 2500 90 (by norm_num)⟩

/-- C9: both conversions factor through the spec's linear interpolation
of the angle domain onto the native signal range, with the per-servo
calibration offset added *after* the interpolation (big_hex; the result
is then clamped to `[0, 1000]`).  The hex backend's calibrated
conversion is the interpolation alone — its stored calibration has no
additive offset. -/
theorem c9_interpolate_then_offset :
    (∀ (direction offset : ℤ) (angle : ℝ),
      Conv.angleToPosition direction offset angle
        = max 0 (min 1000 (Conv.pyInt (Conv.lerp 0 1000 0 240
            (if direction < 0 then 240 - angle else angle)) + offset))) ∧
    (∀ (smin smax : ℤ) (angle : ℝ),
      Conv.angle_to_pulse smin smax angle
        = Conv.pyInt (Conv.lerp smin smax 0 180 (max 0 (min 180 angle)))) := by
  constructor
  · intro d off a
    have harg : ∀ x : ℝ, x * 1000 / 240
        = ((0:ℤ) : ℝ) + ((x - 0) / (240 - 0)) * (((1000:ℤ) : ℝ) - ((0:ℤ) : ℝ)) := by
      intro x; push_cast; ring
    unfold Conv.angleToPosition Conv.lerp
    rw [harg]
  · intro smin smax a
    have harg : ∀ x : ℝ, (smin : ℝ) + x / 180 * ((smax : ℝ) - smin)
        = (smin : ℝ) + ((x - 0) / (180 - 0)) * ((smax : ℝ) - (smin : ℝ)) := by
      intro x; ring
    unfold Conv.angle_to_pulse Conv.lerp
    rw [harg]

/-!
## Theorems: inverse kinematics (claim C1)
-/

namespace IK

/-- Helper: at the out-of-reach input `(400, 0, 0)` with big_hex coxa
length 50, the reach from the femur pivot evaluates to 350. -/
theorem footDist_400 : footDist 400 0 0 50 = 350 := by
  have hadj : adjX 400 0 = 400 := by
    rw [adjX, if_neg]
    push_neg
    intro h
    norm_num at h
  have hs : Real.sqrt ((400:ℝ) ^ 2 + 0 ^ 2) = 400 := by
    rw [show ((400:ℝ) ^ 2 + 0 ^ 2) = 400 ^ 2 by norm_num]
    exact Real.sqrt_sq (by norm_num)
  have hxy : xyDist 400 0 50 = 350 := by
    rw [xyDist, hadj, hs, if_neg (by norm_num)]
    norm_num
  rw [footDist, hxy]
  rw [show ((350:ℝ) ^ 2 + 0 ^ 2) = 350 ^ 2 by norm_num]
  exact Real.sqrt_sq (by norm_num)

/-- Helper: a reach of 350 lies outside the big_hex valid interval
`[|80 - 120|, 80 + 120] = [40, 200]`. -/
theorem outOfReach_400 : outOfReach 80 120 (footDist 400 0 0 50) := by
  rw [footDist_400, outOfReach]
  left
  norm_num

end IK

/-- C1 (counterexample): at input `(400, 0, 0)` with the default
big_hex geometry the reach (350) is outside the valid interval
`[40, 200]`, so clamping occurs, yet big_hex `leg_ik` signals no
reachability warning — its body has no warning output at all.  The
claim's "it signals a reachability warning when clamping occurred" is
false for the big_hex solver. -/
theorem c1_bighex_warning_counterexample :
    IK.outOfReach 80 120 (IK.footDist 400 0 0 50) ∧
      ¬ IK.legIkBigWarned 400 0 0 50 80 120 :=
  ⟨IK.outOfReach_400, fun h => h⟩

/-- C1 (amended): for every input whose reach is outside the valid
interval (and any geometry whose interval is at least 2 wide, as both
backends' default geometries are), the reach actually used downstream
is clamped strictly inside the interval, every inverse-cosine argument
lies in `[-1, 1]` (no domain error), big_hex `leg_ik` still returns a
triple (never `None`), and the *hex* solver — but only that one —
signals the reachability warning. -/
theorem c1_legIk_clamps_strictly_inside (x y z coxa femur tibia : ℝ)
    (hgap : |femur - tibia| + 2 ≤ femur + tibia)
    (hout : IK.outOfReach femur tibia (IK.footDist x y z coxa)) :
    |femur - tibia| < IK.clampedFootDist femur tibia (IK.footDist x y z coxa) ∧
    IK.clampedFootDist femur tibia (IK.footDist x y z coxa) < femur + tibia ∧
    -1 ≤ IK.cosTibiaArg femur tibia
        (IK.clampedFootDist femur tibia (IK.footDist x y z coxa)) ∧
    IK.cosTibiaArg femur tibia
        (IK.clampedFootDist femur tibia (IK.footDist x y z coxa)) ≤ 1 ∧
    -1 ≤ IK.cosFemurArg femur tibia
        (IK.clampedFootDist femur tibia (IK.footDist x y z coxa)) ∧
    IK.cosFemurArg femur tibia
        (IK.clampedFootDist femur tibia (IK.footDist x y z coxa)) ≤ 1 ∧
    (IK.legIkBig x y z coxa femur tibia).isSome ∧
    (IK.legIkHex x y z coxa femur tibia).warned := by
  have hout' := hout
  rw [IK.outOfReach] at hout'
  rw [IK.clampedFootDist, if_pos hout']
  refine ⟨?_, ?_, ?_, ?_, ?_, ?_, rfl, hout⟩
  · calc |femur - tibia| < |femur - tibia| + 1 := by linarith
      _ ≤ IK.clampR (IK.footDist x y z coxa) (|femur - tibia| + 1) (femur + tibia - 1) :=
        le_max_left _ _
  · calc IK.clampR (IK.footDist x y z coxa) (|femur - tibia| + 1) (femur + tibia - 1)
        ≤ femur + tibia - 1 := max_le (by linarith) (min_le_left _ _)
      _ < femur + tibia := by linarith
  · exact le_max_left _ _
  · exact max_le (by norm_num) (min_le_left _ _)
  · exact le_max_left _ _
  · exact max_le (by norm_num) (min_le_left _ _)

/-- C1 witness: the amended statement instantiated at `(400, 0, 0)`
with the default big_hex geometry `(50, 80, 120)`. -/
theorem c1_legIk_clamps_strictly_inside_witness :
    (|(80:ℝ) - 120| + 2 ≤ 80 + 120) ∧
    IK.outOfReach 80 120 (IK.footDist 400 0 0 50) ∧
    (|(80:ℝ) - 120| < IK.clampedFootDist 80 120 (IK.footDist 400 0 0 50) ∧
     IK.clampedFootDist 80 120 (IK.footDist 400 0 0 50) < 80 + 120 ∧
     -1 ≤ IK.cosTibiaArg 80 120 (IK.clampedFootDist 80 120 (IK.footDist 400 0 0 50)) ∧
     IK.cosTibiaArg 80 120 (IK.clampedFootDist 80 120 (IK.footDist 400 0 0 50)) ≤ 1 ∧
     -1 ≤ IK.cosFemurArg 80 120 (IK.clampedFootDist 80 120 (IK.footDist 400 0 0 50)) ∧
     IK.cosFemurArg 80 120 (IK.clampedFootDist 80 120 (IK.footDist 400 0 0 50)) ≤ 1 ∧
     (IK.legIkBig 400 0 0 50 80 120).isSome ∧
     (IK.legIkHex 400 0 0 50 80 120).warned) :=
  ⟨by norm_num, IK.outOfReach_400,
    c1_legIk_clamps_strictly_inside 400 0 0 50 80 120 (by norm_num) IK.outOfReach_400⟩

/-!
## Theorems: leg controller and gaits (claims C5, C6, C7)
-/

namespace Ctrl

/-- Helper: the per-entry loop body of `move_all_legs` emits exactly
three prepare commands and the position write. -/
theorem legPrepareEvents_eq (cfg : Cfg) (leg : String) (x y z : ℝ) (t : ℕ) :
    legPrepareEvents cfg leg x y z t =
      [.sendPrepare (cfg.servoIds leg "coxa")
          (Conv.angleToPosition (cfg.servoDir leg "coxa")
            (cfg.offset (cfg.servoIds leg "coxa"))
            (IK.clampR (120 + IK.degrees (IK.atan2 y (IK.adjX x y))) 0 240)) t,
       .sendPrepare (cfg.servoIds leg "femur")
          (Conv.angleToPosition (cfg.servoDir leg "femur")
            (cfg.offset (cfg.servoIds leg "femur"))
            (IK.clampR (IK.femurAngle (IK.xyDist x y cfg.coxaLen) z cfg.femurLen cfg.tibiaLen
              (IK.clampedFootDist cfg.femurLen cfg.tibiaLen
                (IK.footDist x y z cfg.coxaLen)) + 30) 0 240)) t,
       .sendPrepare (cfg.servoIds leg "tibia")
          (Conv.angleToPosition (cfg.servoDir leg "tibia")
            (cfg.offset (cfg.servoIds leg "tibia"))
            (IK.clampR (240 - IK.tibiaAngle cfg.femurLen cfg.tibiaLen
              (IK.clampedFootDist cfg.femurLen cfg.tibiaLen
                (IK.footDist x y z cfg.coxaLen))) 0 240)) t,
       .writePos leg (x, y, z)] := rfl

/-- Helper: none of the per-entry events is a start or an immediate
move dispatch. -/
theorem legPrepareEvents_no_dispatch (cfg : Cfg) (leg : String) (x y z : ℝ) (t : ℕ) :
    ∀ e ∈ legPrepareEvents cfg leg x y z t, isStart e = false ∧ isMove e = false := by
  intro e he
  rw [legPrepareEvents_eq] at he
  simp only [List.mem_cons, List.not_mem_nil, or_false] at he
  rcases he with rfl | rfl | rfl | rfl <;> exact ⟨rfl, rfl⟩

/-- Helper: running a trace over an appended list is sequential. -/
theorem runEvents_append (st : Positions) (l1 l2 : List Ev) :
    runEvents st (l1 ++ l2) = runEvents (runEvents st l1) l2 := by
  unfold runEvents
  exact List.foldl_append _ _ _ _

/-- Helper: the position effect of one `move_all_legs` loop iteration
is the update of that leg. -/
theorem runEvents_legPrepare (cfg : Cfg) (st : Positions) (leg : String) (x y z : ℝ)
    (t : ℕ) :
    runEvents st (legPrepareEvents cfg leg x y z t) = Function.update st leg (x, y, z) :=
  rfl

/-- Helper: the stored positions after `move_all_legs` are the
sequential per-entry updates of the targets dict. -/
theorem moveAllLegs_positions (cfg : Cfg) (st : Positions)
    (targets : List (String × ℝ × ℝ × ℝ)) (t : ℕ) :
    (moveAllLegs cfg st targets t).1
      = targets.foldl (fun (s : Positions) (p : String × ℝ × ℝ × ℝ) =>
          Function.update s p.1 (p.2.1, p.2.2.1, p.2.2.2)) st := by
  induction targets generalizing st with
  | nil => rfl
  | cons hd tl ih =>
    have hsplit : moveAllLegsEvents cfg (hd :: tl) t
        = legPrepareEvents cfg hd.1 hd.2.1 hd.2.2.1 hd.2.2.2 t ++ moveAllLegsEvents cfg tl t := by
      rw [moveAllLegsEvents, moveAllLegsEvents, List.flatMap_cons, List.append_assoc]
    show runEvents st (moveAllLegsEvents cfg (hd :: tl) t) = _
    rw [hsplit, runEvents_append, runEvents_legPrepare, List.foldl_cons]
    exact ih _

end Ctrl

/-- C6: a multi-leg move (`move_all_legs`) emits, for any set of
prepared per-joint commands, exactly one broadcast dispatch event — a
single `move_start` with the broadcast id 254, at the very end of the
trace — and no immediate per-command dispatch of the prepared moves. -/
theorem c6_commit_is_single_broadcast (cfg : Ctrl.Cfg)
    (targets : List (String × ℝ × ℝ × ℝ)) (t : ℕ) :
    (Ctrl.moveAllLegsEvents cfg targets t).countP Ctrl.isStart = 1 ∧
    (Ctrl.moveAllLegsEvents cfg targets t).getLast?
      = some (Ctrl.Ev.sendStart LX16A.BROADCAST_ID) ∧
    (∀ e ∈ (Ctrl.moveAllLegsEvents cfg targets t).dropLast, Ctrl.isStart e = false) ∧
    (∀ e ∈ Ctrl.moveAllLegsEvents cfg targets t, Ctrl.isMove e = false) := by
  have hflat : ∀ e ∈ targets.flatMap
      (fun p => Ctrl.legPrepareEvents cfg p.1 p.2.1 p.2.2.1 p.2.2.2 t),
      Ctrl.isStart e = false ∧ Ctrl.isMove e = false := by
    intro e he
    rw [List.mem_flatMap] at he
    obtain ⟨p, _, hep⟩ := he
    exact Ctrl.legPrepareEvents_no_dispatch cfg p.1 p.2.1 p.2.2.1 p.2.2.2 t e hep
  refine ⟨?_, ?_, ?_, ?_⟩
  · rw [Ctrl.moveAllLegsEvents, List.countP_append,
      List.countP_eq_zero.mpr (fun e he => by simp [(hflat e he).1])]
    rfl
  · rw [Ctrl.moveAllLegsEvents]
    exact List.getLast?_concat _
  · rw [Ctrl.moveAllLegsEvents, List.dropLast_concat]
    intro e he
    exact (hflat e he).1
  · rw [Ctrl.moveAllLegsEvents]
    intro e he
    rcases List.mem_append.mp he with h | h
    · exact (hflat e h).2
    · simp only [List.mem_singleton] at h
      subst h
      rfl

/-- C7: `move_leg` stores the requested target as the new FootPosition
of exactly the commanded leg, leaves every other leg's stored position
unchanged, and its trace is the three per-joint move dispatches
followed — only then — by the position write. -/
theorem c7_moveLeg_frame_and_order (cfg : Ctrl.Cfg) (st : Ctrl.Positions) (leg : String)
    (x y z : ℝ) (t : ℕ) :
    (Ctrl.moveLeg cfg st leg x y z t).1 leg = (x, y, z) ∧
    (∀ l, l ≠ leg → (Ctrl.moveLeg cfg st leg x y z t).1 l = st l) ∧
    (∃ p1 p2 p3 : ℤ,
      (Ctrl.moveLeg cfg st leg x y z t).2 =
        [Ctrl.Ev.sendMove (cfg.servoIds leg "coxa") p1 t,
         Ctrl.Ev.sendMove (cfg.servoIds leg "femur") p2 t,
         Ctrl.Ev.sendMove (cfg.servoIds leg "tibia") p3 t,
         Ctrl.Ev.writePos leg (x, y, z)]) := by
  refine ⟨?_, ?_, ⟨_, _, _, rfl⟩⟩
  · show Function.update st leg (x, y, z) leg = (x, y, z)
    exact Function.update_same leg (x, y, z) st
  · intro l hl
    show Function.update st leg (x, y, z) l = st l
    exact Function.update_noteq hl (x, y, z) st

namespace Ctrl

/-- Helper: evaluation of the big_hex tripod half-cycle at each of the
six legs — swing legs (`tripod1`) are displaced by the full step vector
`(dx, dy)` and end at `z = -stand_height`; stance legs (`tripod2`) are
displaced by `(-dx/2, -dy/2)` with `z` unchanged. -/
theorem tripodStepBig_eval (cfg : Cfg) (st : Positions) (dx dy lift sh : ℝ) (t : ℕ) :
    tripodStepBig cfg st tripod1 tripod2 dx dy lift sh t "L1"
        = ((st "L1").1 + dx, (st "L1").2.1 + dy, -sh) ∧
    tripodStepBig cfg st tripod1 tripod2 dx dy lift sh t "R2"
        = ((st "R2").1 + dx, (st "R2").2.1 + dy, -sh) ∧
    tripodStepBig cfg st tripod1 tripod2 dx dy lift sh t "L3"
        = ((st "L3").1 + dx, (st "L3").2.1 + dy, -sh) ∧
    tripodStepBig cfg st tripod1 tripod2 dx dy lift sh t "R1"
        = ((st "R1").1 - dx / 2, (st "R1").2.1 - dy / 2, (st "R1").2.2) ∧
    tripodStepBig cfg st tripod1 tripod2 dx dy lift sh t "L2"
        = ((st "L2").1 - dx / 2, (st "L2").2.1 - dy / 2, (st "L2").2.2) ∧
    tripodStepBig cfg st tripod1 tripod2 dx dy lift sh t "R3"
        = ((st "R3").1 - dx / 2, (st "R3").2.1 - dy / 2, (st "R3").2.2) := by
  refine ⟨?_, ?_, ?_, ?_, ?_, ?_⟩ <;>
    simp [tripodStepBig, moveAllLegs_positions, tripod1, tripod2, Function.update_apply]

/-- Helper: evaluation of the hex tripod half-cycle at each of the six
legs — swing legs are displaced by *half* the step vector `(dx/2,
dy/2)` and end at `z = -stand_height`; stance legs are displaced by
`(-dx/2, -dy/2)` with `z` unchanged. -/
theorem tripodStepHex_eval (st : Positions) (dx dy lift sh : ℝ) :
    tripodStepHex st tripod1 tripod2 dx dy lift sh "L1"
        = ((st "L1").1 + dx / 2, (st "L1").2.1 + dy / 2, -sh) ∧
    tripodStepHex st tripod1 tripod2 dx dy lift sh "R2"
        = ((st "R2").1 + dx / 2, (st "R2").2.1 + dy / 2, -sh) ∧
    tripodStepHex st tripod1 tripod2 dx dy lift sh "L3"
        = ((st "L3").1 + dx / 2, (st "L3").2.1 + dy / 2, -sh) ∧
    tripodStepHex st tripod1 tripod2 dx dy lift sh "R1"
        = ((st "R1").1 - dx / 2, (st "R1").2.1 - dy / 2, (st "R1").2.2) ∧
    tripodStepHex st tripod1 tripod2 dx dy lift sh "L2"
        = ((st "L2").1 - dx / 2, (st "L2").2.1 - dy / 2, (st "L2").2.2) ∧
    tripodStepHex st tripod1 tripod2 dx dy lift sh "R3"
        = ((st "R3").1 - dx / 2, (st "R3").2.1 - dy / 2, (st "R3").2.2) := by
  refine ⟨?_, ?_, ?_, ?_, ?_, ?_⟩ <;>
    simp [tripodStepHex, hexMoveLegPos, tripod1, tripod2, Function.update_apply]

end Ctrl

/-- C5 (counterexample): in the hex gait controller, one tripod
half-cycle from the default stance `(80, 0, -50)` with step vector
`(40, 0)` leaves swing leg L1 at `x = 100 = 80 + 40/2` — half the step
vector — not at `x = 120 = 80 + 40`, so the claim that each swing leg's
horizontal displacement is the full step vector fails on the hex
backend. -/
theorem c5_hex_swing_half_counterexample :
    (Ctrl.tripodStepHex (fun _ => (80, 0, -50)) Ctrl.tripod1 Ctrl.tripod2 40 0 30 50 "L1").1
        = 100 ∧
    (100 : ℝ) ≠ 80 + 40 := by
  constructor
  · simp [Ctrl.tripodStepHex, Ctrl.hexMoveLegPos, Ctrl.tripod1, Ctrl.tripod2,
      Function.update_apply]
    norm_num
  · norm_num

/-- C5 (amended): the two tripod sets are disjoint and their union is
exactly the six legs (both backends use the same sets).  In each
half-cycle of the big_hex tripod gait every swing leg's horizontal
displacement is the full step vector `(dx, dy)` and every stance leg's
is `(-dx/2, -dy/2)` — magnitude half the step length.  In the hex
backend the swing legs too move by only half the step vector `(dx/2,
dy/2)`, while stance legs move by `(-dx/2, -dy/2)`. -/
theorem c5_tripod_partition_and_displacements :
    (∀ l, (l ∈ Ctrl.tripod1 ∨ l ∈ Ctrl.tripod2) ↔ l ∈ Ctrl.allLegs) ∧
    (∀ l, ¬(l ∈ Ctrl.tripod1 ∧ l ∈ Ctrl.tripod2)) ∧
    (∀ (cfg : Ctrl.Cfg) (st : Ctrl.Positions) (dx dy lift sh : ℝ) (t : ℕ),
      (∀ l ∈ Ctrl.tripod1,
        Ctrl.tripodStepBig cfg st Ctrl.tripod1 Ctrl.tripod2 dx dy lift sh t l
          = ((st l).1 + dx, (st l).2.1 + dy, -sh)) ∧
      (∀ l ∈ Ctrl.tripod2,
        Ctrl.tripodStepBig cfg st Ctrl.tripod1 Ctrl.tripod2 dx dy lift sh t l
          = ((st l).1 - dx / 2, (st l).2.1 - dy / 2, (st l).2.2))) ∧
    (∀ (st : Ctrl.Positions) (dx dy lift sh : ℝ),
      (∀ l ∈ Ctrl.tripod1,
        Ctrl.tripodStepHex st Ctrl.tripod1 Ctrl.tripod2 dx dy lift sh l
          = ((st l).1 + dx / 2, (st l).2.1 + dy / 2, -sh)) ∧
      (∀ l ∈ Ctrl.tripod2,
        Ctrl.tripodStepHex st Ctrl.tripod1 Ctrl.tripod2 dx dy lift sh l
          = ((st l).1 - dx / 2, (st l).2.1 - dy / 2, (st l).2.2))) ∧
    (∀ dx dy : ℝ,
      Real.sqrt ((dx / 2) ^ 2 + (dy / 2) ^ 2) = (1 / 2) * Real.sqrt (dx ^ 2 + dy ^ 2)) := by
  refine ⟨?_, ?_, ?_, ?_, ?_⟩
  · intro l
    simp [Ctrl.tripod1, Ctrl.tripod2, Ctrl.allLegs]
    tauto
  · intro l ⟨h1, h2⟩
    simp [Ctrl.tripod1] at h1
    simp [Ctrl.tripod2] at h2
    rcases h1 with rfl | rfl | rfl <;> simp at h2
  · intro cfg st dx dy lift sh t
    have h := Ctrl.tripodStepBig_eval cfg st dx dy lift sh t
    constructor
    · intro l hl
      simp [Ctrl.tripod1] at hl
      rcases hl with rfl | rfl | rfl
      · exact h.1
      · exact h.2.1
      · exact h.2.2.1
    · intro l hl
      simp [Ctrl.tripod2] at hl
      rcases hl with rfl | rfl | rfl
      · exact h.2.2.2.1
      · exact h.2.2.2.2.1
      · exact h.2.2.2.2.2
  · intro st dx dy lift sh
    have h := Ctrl.tripodStepHex_eval st dx dy lift sh
    constructor
    · intro l hl
      simp [Ctrl.tripod1] at hl
      rcases hl with rfl | rfl | rfl
      · exact h.1
      · exact h.2.1
      · exact h.2.2.1
    · intro l hl
      simp [Ctrl.tripod2] at hl
      rcases hl with rfl | rfl | rfl
      · exact h.2.2.2.1
      · exact h.2.2.2.2.1
      · exact h.2.2.2.2.2
  · intro dx dy
    have h4 : (dx / 2) ^ 2 + (dy / 2) ^ 2 = (dx ^ 2 + dy ^ 2) / 4 := by ring
    rw [h4, Real.sqrt_div' _ (by norm_num : (0:ℝ) ≤ 4)]
    rw [show Real.sqrt 4 = 2 by
      rw [show (4:ℝ) = 2 ^ 2 by norm_num]
      exact Real.sqrt_sq (by norm_num)]
    ring

/-- C5 witness: the displacement components of the amended statement
instantiated at a concrete configuration and stance — big_hex swing leg
L1 with step `(60, 0)` and hex stance leg R1 with step `(40, 0)`. -/
theorem c5_tripod_partition_and_displacements_witness :
    ("L1" ∈ Ctrl.tripod1) ∧ ("R1" ∈ Ctrl.tripod2) ∧
    (Ctrl.tripodStepBig
        ⟨fun _ _ => 1, fun _ _ => 1, fun _ => 0, 50, 80, 120⟩
        (fun _ => (100, 0, -80)) Ctrl.tripod1 Ctrl.tripod2 60 0 40 80 100 "L1"
      = (((fun (_ : String) => ((100 : ℝ), (0 : ℝ), (-80 : ℝ))) "L1").1 + 60,
         ((fun (_ : String) => ((100 : ℝ), (0 : ℝ), (-80 : ℝ))) "L1").2.1 + 0, -80)) ∧
    (Ctrl.tripodStepHex (fun _ => (80, 0, -50)) Ctrl.tripod1 Ctrl.tripod2 40 0 30 50 "R1"
      = (((fun (_ : String) => ((80 : ℝ), (0 : ℝ), (-50 : ℝ))) "R1").1 - 40 / 2,
         ((fun (_ : String) => ((80 : ℝ), (0 : ℝ), (-50 : ℝ))) "R1").2.1 - 0 / 2,
         ((fun (_ : String) => ((80 : ℝ), (0 : ℝ), (-50 : ℝ))) "R1").2.2)) :=
  ⟨by simp [Ctrl.tripod1], by simp [Ctrl.tripod2],
    (c5_tripod_partition_and_displacements.2.2.1
      ⟨fun _ _ => 1, fun _ _ => 1, fun _ => 0, 50, 80, 120⟩
      (fun _ => (100, 0, -80)) 60 0 40 80 100).1 "L1" (by simp [Ctrl.tripod1]),
    (c5_tripod_partition_and_displacements.2.2.2.1
      (fun _ => (80, 0, -50)) 40 0 30 50).2 "R1" (by simp [Ctrl.tripod2])⟩
